import Mathlib

/-!
Verification of the DOGEPAL recommendation engine
(`src/models/spending_recommender.py`, with the confidence filter and the
priority mapping of
`src/backend/app/api/v1/endpoints/recommendations.py`).

The Python code is embedded shallowly: monetary amounts are rationals,
Python dicts of fixed shape become structures, `None` becomes `Option`,
and the single impure input of the engine (`datetime.utcnow()`) is passed
in explicitly as the `now` argument.  Free-text fields built by string
formatting (`description`, `explanation`, the `title` of Rule B) are not
modelled: they are deterministic functions of the same data and no
property below mentions them.
-/

/-- Python `str.lower` restricted to the ASCII strings used by the engine:
lowercases every character. -/
def strLower (s : String) : String := String.mk (s.data.map Char.toLower)

/-- A key of a Python dict: either a string key or an integer key. -/
inductive PyKey where
  | s (v : String)
  | i (v : Int)
deriving DecidableEq

/-- An input spending record (the dict consumed by
`SpendingRecommender._generate_recommendation`).  Each field is `none`
when the key is absent from the dict.  `record.get(k, d)` becomes
`Option.getD`. -/
structure TransactionRecord where
  amount : Option ℚ
  category : Option String
  vendor : Option String
  department : Option String
  transaction_id : Option String
deriving DecidableEq

/-- `all(field in record for field in required_fields)` with
`required_fields = ['amount', 'category', 'vendor', 'department']`
(spending_recommender.py lines 163-164). -/
def hasRequired (r : TransactionRecord) : Bool :=
  r.amount.isSome && r.category.isSome && r.vendor.isSome && r.department.isSome

/-- The hard-coded department statistics table `dept_stats`
(spending_recommender.py lines 174-180) combined with the lookup default
`{'mean': 10000, 'std_dev': 5000}` of line 192: the pair is
(mean, std_dev). -/
def dept_stats (d : String) : ℚ × ℚ :=
  if d = "technology" then (15000, 5000)
  else if d = "hr" then (8000, 2000)
  else if d = "finance" then (12000, 4000)
  else if d = "public works" then (25000, 10000)
  else if d = "operations" then (10000, 3000)
  else (10000, 5000)

/-- `category in category_benchmarks` (the keys of the dict of lines
183-189). -/
def categoryKnown (c : String) : Bool :=
  c = "office supplies" || c = "services" || c = "hardware" ||
  c = "training" || c = "other"

/-- The hard-coded table `category_benchmarks` (lines 183-189) combined
with the lookup default `category_benchmarks['other']` of line 200: the
pair is (mean, savings_potential). -/
def category_benchmarks (c : String) : ℚ × ℚ :=
  if c = "office supplies" then (800, 0.15)
  else if c = "services" then (3000, 0.20)
  else if c = "hardware" then (5000, 0.12)
  else if c = "training" then (2000, 0.10)
  else (1500, 0.05)

/-- `_calculate_z_score` (lines 146-150). -/
def calculate_z_score (value mean std_dev : ℚ) : ℚ :=
  if std_dev = 0 then 0 else (value - mean) / std_dev

/-- The z-score computed for a record (lines 192-197): the department
statistics are looked up under `department.lower()`. -/
def zScoreOf (r : TransactionRecord) : ℚ :=
  calculate_z_score (r.amount.getD 0)
    (dept_stats (strLower (r.department.getD ""))).1
    (dept_stats (strLower (r.department.getD ""))).2

/-- Trigger condition of Rule 1, department spending anomaly
(`if z_score > 2.0`, line 204). -/
def ruleACond (r : TransactionRecord) : Prop := 2 < zScoreOf r

instance (r : TransactionRecord) : Decidable (ruleACond r) :=
  inferInstanceAs (Decidable (2 < zScoreOf r))

/-- Trigger condition of Rule 2, category cost optimization
(`elif category in category_benchmarks and amount > cat_mean * 1.5`,
line 262); `category` is the lowercased category of line 168. -/
def ruleBCond (r : TransactionRecord) : Prop :=
  categoryKnown (strLower (r.category.getD "")) = true ∧
  (category_benchmarks (strLower (r.category.getD ""))).1 * 1.5 < r.amount.getD 0

instance (r : TransactionRecord) : Decidable (ruleBCond r) :=
  inferInstanceAs (Decidable (_ = true ∧ _ < _))

/-- Round half to even of a rational, the rounding Python's builtin
`round` applies. -/
def roundHalfEven (x : ℚ) : ℤ :=
  let n := ⌊x⌋
  let r := x - (n : ℚ)
  if r < 1/2 then n
  else if 1/2 < r then n + 1
  else if n % 2 = 0 then n else n + 1

/-- Python `round(x, 2)` on the exact rational value of x. -/
def round2 (x : ℚ) : ℚ := ((roundHalfEven (x * 100) : ℤ) : ℚ) / 100

/-- The value of the `recommendation_type` field.  The engine only ever
produces the first two; the remaining constructors are the other members
of the `RecommendationType` enum that the endpoint maps
(recommendations.py lines 233-244). -/
inductive RecType where
  | spending_anomaly
  | cost_saving
  | budget_optimization
  | vendor_consolidation
  | policy_violation
  | unknown
deriving DecidableEq

/-- A recommendation: the dict returned by `_generate_recommendation`.
Formatted free-text fields (`title` of Rule 2, `description`,
`explanation`) are omitted; the nested `metadata` dict is flattened into
the fields below it contributes (`original_amount` .. `category_average`).
Fields of `metadata.statistics` (Rule 1) and `metadata.benchmarks`
(Rule 2) that only exist for one rule are `Option`s. -/
structure Recommendation where
  transaction_id : String
  rtype : RecType
  potential_savings : ℚ
  confidence_score : ℚ
  priority : String
  original_amount : ℚ
  category : String
  vendor : String
  department : String
  generated_at : String
  department_mean : Option ℚ
  department_std_dev : Option ℚ
  z_score : Option ℚ
  category_average : Option ℚ
deriving DecidableEq

/-- The Rule 1 recommendation dict (spending_recommender.py lines
204-259): savings_potential 0.25, confidence `min(0.9, 0.7 + z*0.05)`,
priority hard-coded to 'high'. -/
def anomalyRec (now : String) (r : TransactionRecord) : Recommendation :=
  { transaction_id := r.transaction_id.getD ""
    rtype := RecType.spending_anomaly
    potential_savings := round2 (r.amount.getD 0 * 0.25)
    confidence_score := min 0.9 (0.7 + zScoreOf r * 0.05)
    priority := "high"
    original_amount := r.amount.getD 0
    category := strLower (r.category.getD "")
    vendor := r.vendor.getD ""
    department := r.department.getD ""
    generated_at := now
    department_mean := some (dept_stats (strLower (r.department.getD ""))).1
    department_std_dev := some (dept_stats (strLower (r.department.getD ""))).2
    z_score := some (zScoreOf r)
    category_average := none }

/-- The Rule 2 recommendation dict (lines 262-313): savings_potential
from the category benchmark, confidence hard-coded 0.8, priority
hard-coded 'medium'. -/
def costRec (now : String) (r : TransactionRecord) : Recommendation :=
  { transaction_id := r.transaction_id.getD ""
    rtype := RecType.cost_saving
    potential_savings :=
      round2 (r.amount.getD 0 * (category_benchmarks (strLower (r.category.getD ""))).2)
    confidence_score := 0.8
    priority := "medium"
    original_amount := r.amount.getD 0
    category := strLower (r.category.getD "")
    vendor := r.vendor.getD ""
    department := r.department.getD ""
    generated_at := now
    department_mean := none
    department_std_dev := none
    z_score := none
    category_average := some (category_benchmarks (strLower (r.category.getD ""))).1 }

/-- `_generate_recommendation` (lines 152-316): skip when a required
field is missing, Rule 1 when the z-score exceeds 2, otherwise (elif)
Rule 2 when the category is a known benchmark and the amount exceeds 1.5
times the benchmark mean, otherwise no recommendation. -/
def generate_recommendation (now : String) (r : TransactionRecord) :
    Option Recommendation :=
  if hasRequired r then
    if ruleACond r then some (anomalyRec now r)
    else if ruleBCond r then some (costRec now r)
    else none
  else none

/-- An element of the input list of `predict`: either a spending dict or
a value of any other type. -/
inductive PyInput where
  | dict (r : TransactionRecord)
  | nonDict
deriving DecidableEq

/-- The keys of the dict literal returned by `_generate_recommendation`
(lines 208-259 / 266-313): all of them string keys. -/
def recDictKeys : List PyKey :=
  [PyKey.s "transaction_id", PyKey.s "recommendation_type", PyKey.s "title",
   PyKey.s "description", PyKey.s "potential_savings",
   PyKey.s "confidence_score", PyKey.s "priority", PyKey.s "explanation",
   PyKey.s "metadata"]

/-- One iteration of the loop of `predict` (lines 81-93).  A non-dict
element gets `None` appended (lines 82-85).  Otherwise
`rec = _generate_recommendation(record)` is computed and
`rec[0] if rec else None` is appended: when `rec` is `None` that value is
`None`; when `rec` is a (non-empty, hence truthy) dict, `rec[0]` looks up
the integer key 0 among the dict's string keys (`recDictKeys`), raises
`KeyError`, and the `except` handler of lines 91-93 appends `None`.  The
`then` branch below, Python's would-be value at key 0, is unreachable
because `PyKey.i 0 ∈ recDictKeys` is false. -/
def predictEntry (now : String) : PyInput → Option Recommendation
  | PyInput.nonDict => none
  | PyInput.dict r =>
    match generate_recommendation now r with
    | none => none
    | some d => if PyKey.i 0 ∈ recDictKeys then some d else none

/-- `predict` on a list input (lines 58-95): `if not X: return []`, then
the per-record loop; for a list input `single_input` is false, so the
whole list of results is returned. -/
def predict (now : String) (X : List PyInput) : List (Option Recommendation) :=
  if X.isEmpty then [] else X.map (predictEntry now)

/-- The confidence filter of the `/generate` endpoint
(recommendations.py lines 189-192):
`[rec for rec in model_recommendations if rec and rec.get('confidence_score', 0) >= min_confidence]`. -/
def filterByConfidence (min_confidence : ℚ)
    (l : List (Option Recommendation)) : List Recommendation :=
  l.filterMap fun o =>
    o.bind fun rec =>
      if min_confidence ≤ rec.confidence_score then some rec else none

/-- The evaluate boundary of the spec: the model's `predict` followed by
the endpoint's confidence filter. -/
def evaluate (now : String) (X : List PyInput) (min_confidence : ℚ) :
    List Recommendation :=
  filterByConfidence min_confidence (predict now X)

/-- The confidence-to-priority mapping the endpoint applies before
persisting (recommendations.py lines 246-251). -/
def endpointPriority (confidence : ℚ) : String :=
  if 0.8 ≤ confidence then "high"
  else if 0.6 ≤ confidence then "medium"
  else "low"

/-- A malformed input element in the sense of the error-handling design:
not a dict, or a dict missing one of the required fields. -/
def badInput : PyInput → Bool
  | PyInput.nonDict => true
  | PyInput.dict r => !hasRequired r

/-- Strip the one field whose value comes from the clock. -/
def eraseGeneratedAt (rec : Recommendation) : Recommendation :=
  { rec with generated_at := "" }

/-- Formalised from the spec (section 4.1): the amounts of the input
records belonging to one department group. -/
def specDeptAmounts (X : List PyInput) (d : String) : List ℚ :=
  X.filterMap fun inp =>
    match inp with
    | PyInput.dict r => if r.department = some d then r.amount else none
    | PyInput.nonDict => none

/-- Formalised from the spec (section 4.1): the mean of a group, 0 for an
empty group. -/
def specGroupMean (l : List ℚ) : ℚ :=
  if l.length = 0 then 0 else l.sum / l.length

/-- Formalised from the spec (section 4.1): the population variance of a
group, i.e. the square of the population standard deviation; groups of
size at most one have variance 0. -/
def specGroupVar (l : List ℚ) : ℚ :=
  if l.length = 0 then 0
  else (l.map fun a => (a - specGroupMean l) * (a - specGroupMean l)).sum / l.length

/-- Python `str.strip` for space characters: drops leading and trailing
spaces. -/
def strTrim (s : String) : String :=
  String.mk (((s.data.dropWhile fun c => c = ' ').reverse.dropWhile
    fun c => c = ' ').reverse)

/-- Formalised from the spec (Rule C): the total spend of one vendor key
(vendor names trimmed and lowercased). -/
def specVendorTotal (X : List PyInput) (v : String) : ℚ :=
  (X.filterMap fun inp =>
    match inp with
    | PyInput.dict r =>
      if strLower (strTrim (r.vendor.getD "")) = v then r.amount else none
    | PyInput.nonDict => none).sum

/-- Concrete input for claim C1: a department group with a single member. -/
def c1rec : TransactionRecord :=
  ⟨some 100000, some "services", some "v", some "hr", some "T1"⟩

/-- Concrete input set for claim C1. -/
def c1X : List PyInput := [PyInput.dict c1rec]

/-- Concrete input for the witness of claim C1. -/
def c1wrec : TransactionRecord :=
  ⟨some 100000, some "services", some "w", some "technology", some "W1"⟩

/-- Concrete inputs for claim C2: four distinct vendors, 200 each. -/
def c2rec (v : String) : TransactionRecord :=
  ⟨some 200, some "services", some v, some "hr", some "T2"⟩

/-- Concrete input set for claim C2. -/
def c2X : List PyInput :=
  [PyInput.dict (c2rec "alpha"), PyInput.dict (c2rec "beta"),
   PyInput.dict (c2rec "gamma"), PyInput.dict (c2rec "delta")]

/-- Concrete input for the witness of claim C2. -/
def c2wrec : TransactionRecord :=
  ⟨some 100000, some "services", some "w", some "technology", some "W2"⟩

/-- Concrete input for claim C3: satisfies both rule conditions. -/
def c3rec : TransactionRecord :=
  ⟨some 100000, some "services", some "v", some "technology", some "T3"⟩

/-- Concrete input for the witness of claim C3. -/
def c3wrec : TransactionRecord :=
  ⟨some 40000, some "training", some "v", some "finance", some "W3"⟩

/-- Concrete input for claim C4: generates a confidence-0.9 recommendation. -/
def c4rec : TransactionRecord :=
  ⟨some 100000, some "services", some "v", some "technology", some "T4"⟩

/-- Concrete input for claim C5: z-score 17. -/
def c5rec : TransactionRecord :=
  ⟨some 100000, some "services", some "v", some "technology", some "T5"⟩

/-- Concrete input for the witness of claim C5. -/
def c5wrec : TransactionRecord :=
  ⟨some 30000, some "hardware", some "v", some "hr", some "W5"⟩

/-- Concrete input for claim C6: triggers Rule 2. -/
def c6rec : TransactionRecord :=
  ⟨some 5000, some "office supplies", some "v", some "technology", some "T6"⟩

/-- Concrete input for the witness of claim C6. -/
def c6wrec : TransactionRecord :=
  ⟨some 9000, some "services", some "v", some "operations", some "W6"⟩

/-- Concrete input for claim C7: unknown category, amount above 1.5 times
the default benchmark mean. -/
def c7rec : TransactionRecord :=
  ⟨some 3000, some "software", some "v", some "hr", some "T7"⟩

/-- Concrete input for the witness of claim C7. -/
def c7wrec : TransactionRecord :=
  ⟨some 50, some "misc", some "v", some "finance", some "W7"⟩

/-- Concrete input for the witness of claim C8. -/
def c8wrec : TransactionRecord :=
  ⟨some 5000, some "office supplies", some "v", some "technology", some "W8"⟩

theorem roundHalfEven_nonneg (x : ℚ) (hx : 0 ≤ x) : 0 ≤ roundHalfEven x := by
  have hf : 0 ≤ ⌊x⌋ := Int.floor_nonneg.mpr hx
  simp only [roundHalfEven]
  split
  · exact hf
  · split
    · omega
    · split <;> omega

theorem round2_nonneg (x : ℚ) (hx : 0 ≤ x) : 0 ≤ round2 x := by
  unfold round2
  have h := roundHalfEven_nonneg (x * 100) (by positivity)
  positivity

theorem roundHalfEven_intCast (n : ℤ) : roundHalfEven ((n : ℚ)) = n := by
  simp only [roundHalfEven, Int.floor_intCast]
  norm_num

theorem round2_eq (x : ℚ) (n : ℤ) (h : x * 100 = (n : ℚ)) :
    round2 x = (n : ℚ) / 100 := by
  unfold round2
  rw [h, roundHalfEven_intCast]

theorem category_benchmarks_sp_nonneg (c : String) :
    0 ≤ (category_benchmarks c).2 := by
  unfold category_benchmarks
  split_ifs <;> norm_num

theorem predictEntry_none (now : String) (inp : PyInput) :
    predictEntry now inp = none := by
  cases inp with
  | nonDict => rfl
  | dict r =>
    simp only [predictEntry, recDictKeys]
    rcases generate_recommendation now r with _ | d <;> simp

theorem predict_eq_map (now : String) (X : List PyInput) :
    predict now X = X.map (predictEntry now) := by
  cases X <;> simp [predict]

theorem genRec_cases (now : String) (r : TransactionRecord)
    (rec : Recommendation) (h : generate_recommendation now r = some rec) :
    (ruleACond r ∧ rec = anomalyRec now r) ∨
    (¬ ruleACond r ∧ ruleBCond r ∧ rec = costRec now r) := by
  unfold generate_recommendation at h
  split_ifs at h with hreq hA hB
  · exact Or.inl ⟨hA, by injection h with h; exact h.symm⟩
  · exact Or.inr ⟨hA, hB, by injection h with h; exact h.symm⟩

theorem genRec_some_of_A (now : String) (r : TransactionRecord)
    (h1 : hasRequired r = true) (h2 : ruleACond r) :
    generate_recommendation now r = some (anomalyRec now r) := by
  simp [generate_recommendation, h1, h2]

theorem genRec_some_of_B (now : String) (r : TransactionRecord)
    (h1 : hasRequired r = true) (h2 : ¬ ruleACond r) (h3 : ruleBCond r) :
    generate_recommendation now r = some (costRec now r) := by
  simp [generate_recommendation, h1, h2, h3]

theorem genRec_none_of (now : String) (r : TransactionRecord)
    (h1 : ¬ ruleACond r) (h2 : ¬ ruleBCond r) :
    generate_recommendation now r = none := by
  simp [generate_recommendation, h1, h2]

/-- C9: `evaluate` is deterministic and idempotent — two calls with the
same transaction list and the same `min_confidence` return identical
output, whatever the clock reads on each call; the same holds for the
raw `predict` output, and the per-record generator differs between the
two calls at most in the `generated_at` metadata timestamp. -/
theorem c9_deterministic (t1 t2 : String) (X : List PyInput) (c : ℚ) :
    evaluate t1 X c = evaluate t2 X c ∧
    predict t1 X = predict t2 X ∧
    ∀ r, (generate_recommendation t1 r).map eraseGeneratedAt =
         (generate_recommendation t2 r).map eraseGeneratedAt := by
  have hp : predict t1 X = predict t2 X := by
    rw [predict_eq_map, predict_eq_map]
    exact List.map_congr_left fun inp _ => by
      rw [predictEntry_none, predictEntry_none]
  refine ⟨by unfold evaluate; rw [hp], hp, fun r => ?_⟩
  unfold generate_recommendation
  split_ifs
  · simp [eraseGeneratedAt, anomalyRec]
  · simp [eraseGeneratedAt, costRec]
  · rfl
  · rfl

/-- C10: on a list input, `predict` returns one entry per input element
at the matching position (the record's recommendation or `None`), and a
malformed element — not a dict, or missing a required field — yields
`None` at its position without aborting the processing of the rest. -/
theorem c10_predict_shape (now : String) (X : List PyInput) :
    (predict now X).length = X.length ∧
    (∀ i : ℕ, (predict now X)[i]? = (X[i]?).map (predictEntry now)) ∧
    (∀ inp, badInput inp = true → predictEntry now inp = none) := by
  refine ⟨?_, fun i => ?_, fun inp _ => predictEntry_none now inp⟩
  · rw [predict_eq_map]; exact List.length_map X (predictEntry now)
  · rw [predict_eq_map]; exact List.getElem?_map (predictEntry now) X i

/-- Witness for C10 at a concrete malformed input. -/
theorem c10_predict_shape_witness :
    badInput PyInput.nonDict = true ∧ predictEntry "t" PyInput.nonDict = none :=
  ⟨rfl, (c10_predict_shape "t" []).2.2 PyInput.nonDict rfl⟩

/-- C3 counterexample: a transaction satisfying both the Rule A condition
(z-score 17 > 2) and the Rule B condition yields only the Rule A
recommendation, not one from each rule. -/
theorem c3_counterexample :
    ruleACond c3rec ∧ ruleBCond c3rec ∧
    (generate_recommendation "t" c3rec).map Recommendation.rtype =
      some RecType.spending_anomaly ∧
    (generate_recommendation "t" c3rec).map Recommendation.rtype ≠
      some RecType.cost_saving := by
  have hs : strLower "technology" = "technology" := by decide
  have hz : zScoreOf c3rec = 17 := by
    simp [zScoreOf, calculate_z_score, dept_stats, c3rec, hs]; norm_num
  have hA : ruleACond c3rec := by rw [ruleACond, hz]; norm_num
  have hB : ruleBCond c3rec := by
    refine ⟨by decide, ?_⟩
    have hs2 : strLower "services" = "services" := by decide
    simp [c3rec, hs2, category_benchmarks]
    norm_num
  rw [genRec_some_of_A "t" c3rec (by decide) hA]
  exact ⟨hA, hB, rfl, by simp [anomalyRec]⟩

/-- C3: the rules are not evaluated independently — `_generate_recommendation`
returns at the first rule that fires, so whenever Rule A's condition
holds the sole output is the Rule A recommendation, and a Rule B
recommendation is only ever produced when Rule A's condition fails. -/
theorem c3_first_match_only :
    (∀ now r, hasRequired r = true → ruleACond r →
      (generate_recommendation now r).map Recommendation.rtype =
        some RecType.spending_anomaly) ∧
    (∀ now r rec, generate_recommendation now r = some rec →
      rec.rtype = RecType.cost_saving → ¬ ruleACond r) := by
  constructor
  · intro now r h1 h2
    rw [genRec_some_of_A now r h1 h2]
    rfl
  · intro now r rec h hty
    rcases genRec_cases now r rec h with ⟨_, hrec⟩ | ⟨hA, _, _⟩
    · subst hrec; simp [anomalyRec] at hty
    · exact hA

/-- Witness for C3 at a concrete anomalous record. -/
theorem c3_first_match_only_witness :
    hasRequired c3wrec = true ∧ ruleACond c3wrec ∧
    (generate_recommendation "t" c3wrec).map Recommendation.rtype =
      some RecType.spending_anomaly := by
  have hs : strLower "finance" = "finance" := by decide
  have hz : zScoreOf c3wrec = 7 := by
    simp [zScoreOf, calculate_z_score, dept_stats, c3wrec, hs]; norm_num
  have hA : ruleACond c3wrec := by rw [ruleACond, hz]; norm_num
  exact ⟨by decide, hA, c3_first_match_only.1 "t" c3wrec (by decide) hA⟩

/-- C5 counterexample: at z-score 17 the emitted confidence is 0.9, not
the min(0.99, 0.7 + z·0.05) = 0.99 the claim states. -/
theorem c5_counterexample :
    zScoreOf c5rec = 17 ∧
    (generate_recommendation "t" c5rec).map Recommendation.confidence_score =
      some 0.9 ∧
    (0.9 : ℚ) ≠ min 0.99 (0.7 + 17 * 0.05) := by
  have hs : strLower "technology" = "technology" := by decide
  have hz : zScoreOf c5rec = 17 := by
    simp [zScoreOf, calculate_z_score, dept_stats, c5rec, hs]; norm_num
  have hA : ruleACond c5rec := by rw [ruleACond, hz]; norm_num
  refine ⟨hz, ?_, ?_⟩
  · rw [genRec_some_of_A "t" c5rec (by decide) hA]
    simp [anomalyRec, hz]
    norm_num
  · rw [min_eq_left (by norm_num : (0.99 : ℚ) ≤ 0.7 + 17 * 0.05)]
    norm_num

/-- C5 amended: when Rule A fires, the confidence is
min(0.9, 0.7 + z·0.05) — the clamp is 0.9, not 0.99. -/
theorem c5_confidence_clamp :
    ∀ now r rec, generate_recommendation now r = some rec →
      rec.rtype = RecType.spending_anomaly →
      rec.confidence_score = min 0.9 (0.7 + zScoreOf r * 0.05) ∧
      rec.confidence_score ≤ 0.9 := by
  intro now r rec h hty
  rcases genRec_cases now r rec h with ⟨_, hrec⟩ | ⟨_, _, hrec⟩
  · subst hrec
    exact ⟨rfl, min_le_left _ _⟩
  · subst hrec; simp [costRec] at hty

/-- Witness for C5 at a concrete anomalous record. -/
theorem c5_confidence_clamp_witness :
    generate_recommendation "t" c5wrec = some (anomalyRec "t" c5wrec) ∧
    (anomalyRec "t" c5wrec).rtype = RecType.spending_anomaly ∧
    ((anomalyRec "t" c5wrec).confidence_score =
        min 0.9 (0.7 + zScoreOf c5wrec * 0.05) ∧
      (anomalyRec "t" c5wrec).confidence_score ≤ 0.9) := by
  have hs : strLower "hr" = "hr" := by decide
  have hz : zScoreOf c5wrec = 11 := by
    simp [zScoreOf, calculate_z_score, dept_stats, c5wrec, hs]; norm_num
  have hA : ruleACond c5wrec := by rw [ruleACond, hz]; norm_num
  have heq := genRec_some_of_A "t" c5wrec (by decide) hA
  exact ⟨heq, rfl, c5_confidence_clamp "t" c5wrec (anomalyRec "t" c5wrec) heq rfl⟩

/-- C6 counterexample: the Rule B recommendation carries confidence 0.8
but priority 'medium', not the 'high' the threshold rule dictates. -/
theorem c6_counterexample :
    (generate_recommendation "t" c6rec).map Recommendation.confidence_score =
      some 0.8 ∧
    (generate_recommendation "t" c6rec).map Recommendation.priority =
      some "medium" ∧
    (0.8 : ℚ) ≤ 0.8 ∧ "medium" ≠ "high" := by
  have hs : strLower "technology" = "technology" := by decide
  have hz : zScoreOf c6rec = -2 := by
    simp [zScoreOf, calculate_z_score, dept_stats, c6rec, hs]; norm_num
  have hA : ¬ ruleACond c6rec := by rw [ruleACond, hz]; norm_num
  have hB : ruleBCond c6rec := by
    refine ⟨by decide, ?_⟩
    have hs2 : strLower "office supplies" = "office supplies" := by decide
    simp [c6rec, hs2, category_benchmarks]
    norm_num
  rw [genRec_some_of_B "t" c6rec (by decide) hA hB]
  exact ⟨rfl, rfl, by norm_num, by decide⟩

/-- C6 amended: the model's emitted recommendations carry fixed per-rule
priorities ('high' for Rule A, 'medium' for Rule B even at confidence
0.8); only the endpoint's re-derived priority follows the
confidence-threshold mapping. -/
theorem c6_hardcoded_priorities :
    (∀ now r rec, generate_recommendation now r = some rec →
      (rec.rtype = RecType.spending_anomaly → rec.priority = "high") ∧
      (rec.rtype = RecType.cost_saving →
        rec.priority = "medium" ∧ rec.confidence_score = 0.8)) ∧
    endpointPriority 0.8 = "high" ∧ endpointPriority 0.7 = "medium" ∧
    endpointPriority 0.5 = "low" := by
  refine ⟨?_, ?_, ?_, ?_⟩
  · intro now r rec h
    rcases genRec_cases now r rec h with ⟨_, hrec⟩ | ⟨_, _, hrec⟩ <;> subst hrec
    · exact ⟨fun _ => rfl, fun hty => by simp [anomalyRec] at hty⟩
    · exact ⟨fun hty => by simp [costRec] at hty, fun _ => ⟨rfl, rfl⟩⟩
  · norm_num [endpointPriority]
  · norm_num [endpointPriority]
  · norm_num [endpointPriority]

/-- Witness for C6 at a concrete Rule B record. -/
theorem c6_hardcoded_priorities_witness :
    generate_recommendation "t" c6wrec = some (costRec "t" c6wrec) ∧
    (costRec "t" c6wrec).rtype = RecType.cost_saving ∧
    ((costRec "t" c6wrec).priority = "medium" ∧
      (costRec "t" c6wrec).confidence_score = 0.8) := by
  have hs : strLower "operations" = "operations" := by decide
  have hz : zScoreOf c6wrec = -1/3 := by
    simp [zScoreOf, calculate_z_score, dept_stats, c6wrec, hs]; norm_num
  have hA : ¬ ruleACond c6wrec := by rw [ruleACond, hz]; norm_num
  have hB : ruleBCond c6wrec := by
    refine ⟨by decide, ?_⟩
    have hs2 : strLower "services" = "services" := by decide
    simp [c6wrec, hs2, category_benchmarks]
    norm_num
  have heq := genRec_some_of_B "t" c6wrec (by decide) hA hB
  exact ⟨heq, rfl,
    (c6_hardcoded_priorities.1 "t" c6wrec (costRec "t" c6wrec) heq).2 rfl⟩

/-- C7 counterexample: a transaction with the unknown category 'software'
and amount above 1.5 times the default benchmark mean produces no
recommendation at all — it is skipped by Rule B, not evaluated against
the default benchmark. -/
theorem c7_counterexample :
    categoryKnown "software" = false ∧
    (category_benchmarks "software").1 * 1.5 < (3000 : ℚ) ∧
    generate_recommendation "t" c7rec = none := by
  have hs : strLower "hr" = "hr" := by decide
  have hz : zScoreOf c7rec = -5/2 := by
    simp [zScoreOf, calculate_z_score, dept_stats, c7rec, hs]; norm_num
  have hA : ¬ ruleACond c7rec := by rw [ruleACond, hz]; norm_num
  have hB : ¬ ruleBCond c7rec := fun hb => absurd hb.1 (by decide)
  refine ⟨by decide, ?_, genRec_none_of "t" c7rec hA hB⟩
  simp [category_benchmarks]
  norm_num

/-- C7 amended: an unknown category is indeed given the default 'other'
benchmark by the lookup, but Rule B additionally requires the category to
be a known benchmark key, so a record with an unknown category never
yields a cost-optimization recommendation. -/
theorem c7_unknown_category_never_rule_b :
    (∀ c, categoryKnown c = false → category_benchmarks c = (1500, 0.05)) ∧
    (∀ now r, hasRequired r = true →
      categoryKnown (strLower (r.category.getD "")) = false →
      generate_recommendation now r = none ∨
      (generate_recommendation now r).map Recommendation.rtype =
        some RecType.spending_anomaly) := by
  constructor
  · intro c hck
    unfold category_benchmarks
    split_ifs with h1 h2 h3 h4
    · subst h1; exact absurd hck (by decide)
    · subst h2; exact absurd hck (by decide)
    · subst h3; exact absurd hck (by decide)
    · subst h4; exact absurd hck (by decide)
    · rfl
  · intro now r hreq hck
    by_cases hA : ruleACond r
    · right
      rw [genRec_some_of_A now r hreq hA]
      rfl
    · left
      refine genRec_none_of now r hA fun hb => ?_
      obtain ⟨h1, -⟩ := hb
      rw [hck] at h1
      exact Bool.noConfusion h1

/-- Witness for C7 at a concrete unknown-category record. -/
theorem c7_unknown_category_never_rule_b_witness :
    hasRequired c7wrec = true ∧
    categoryKnown (strLower (c7wrec.category.getD "")) = false ∧
    (generate_recommendation "t" c7wrec = none ∨
     (generate_recommendation "t" c7wrec).map Recommendation.rtype =
       some RecType.spending_anomaly) :=
  ⟨by decide, by decide,
   c7_unknown_category_never_rule_b.2 "t" c7wrec (by decide) (by decide)⟩

/-- C1 counterexample: on a one-record input the 'hr' department group of
the input has population variance 0 and mean 100000, yet the engine flags
a Rule A anomaly computed against the hard-coded mean 8000 — the
statistics are not derived from the input transaction set. -/
theorem c1_counterexample :
    (generate_recommendation "t" c1rec).map Recommendation.rtype =
      some RecType.spending_anomaly ∧
    (generate_recommendation "t" c1rec).map Recommendation.department_mean =
      some (some 8000) ∧
    specGroupVar (specDeptAmounts c1X "hr") = 0 ∧
    specGroupMean (specDeptAmounts c1X "hr") = 100000 := by
  have hs : strLower "hr" = "hr" := by decide
  have hz : zScoreOf c1rec = 46 := by
    simp [zScoreOf, calculate_z_score, dept_stats, c1rec, hs]; norm_num
  have hA : ruleACond c1rec := by rw [ruleACond, hz]; norm_num
  have heq := genRec_some_of_A "t" c1rec (by decide) hA
  have hamounts : specDeptAmounts c1X "hr" = [100000] := by
    simp [specDeptAmounts, c1X, c1rec]
  refine ⟨by rw [heq]; rfl, ?_, ?_, ?_⟩
  · rw [heq]
    simp [anomalyRec, c1rec, hs, dept_stats]
  · rw [hamounts]
    simp [specGroupVar, specGroupMean]
  · rw [hamounts]
    simp [specGroupMean]

/-- C1 amended: the statistics entering the rules come from fixed
hard-coded tables keyed by the lowercased department/category (with
defaults), independent of the rest of the input: `predict` maps each
record through a function of that record alone, and the department
mean/std recorded in an anomaly recommendation are exactly the
`dept_stats` table entries. -/
theorem c1_fixed_tables :
    (∀ now X, predict now X = X.map (predictEntry now)) ∧
    (∀ now r rec, generate_recommendation now r = some rec →
      rec.rtype = RecType.spending_anomaly →
      rec.department_mean = some (dept_stats (strLower (r.department.getD ""))).1 ∧
      rec.department_std_dev =
        some (dept_stats (strLower (r.department.getD ""))).2) ∧
    dept_stats "technology" = (15000, 5000) ∧
    dept_stats "hr" = (8000, 2000) ∧
    dept_stats "marketing" = (10000, 5000) := by
  refine ⟨predict_eq_map, ?_, by simp [dept_stats], by simp [dept_stats],
    by simp [dept_stats]⟩
  intro now r rec h hty
  rcases genRec_cases now r rec h with ⟨_, hrec⟩ | ⟨_, _, hrec⟩
  · subst hrec; exact ⟨rfl, rfl⟩
  · subst hrec; simp [costRec] at hty

/-- Witness for C1 at a concrete anomalous record. -/
theorem c1_fixed_tables_witness :
    generate_recommendation "t" c1wrec = some (anomalyRec "t" c1wrec) ∧
    (anomalyRec "t" c1wrec).rtype = RecType.spending_anomaly ∧
    ((anomalyRec "t" c1wrec).department_mean =
        some (dept_stats (strLower (c1wrec.department.getD ""))).1 ∧
      (anomalyRec "t" c1wrec).department_std_dev =
        some (dept_stats (strLower (c1wrec.department.getD ""))).2) := by
  have hs : strLower "technology" = "technology" := by decide
  have hz : zScoreOf c1wrec = 17 := by
    simp [zScoreOf, calculate_z_score, dept_stats, c1wrec, hs]; norm_num
  have hA : ruleACond c1wrec := by rw [ruleACond, hz]; norm_num
  have heq := genRec_some_of_A "t" c1wrec (by decide) hA
  exact ⟨heq, rfl, c1_fixed_tables.2.1 "t" c1wrec (anomalyRec "t" c1wrec) heq rfl⟩

/-- C2 counterexample: four distinct vendors with total spend 200 each
(all below 1000), yet `evaluate` emits no recommendation at all — in
particular no aggregate vendor-consolidation recommendation. -/
theorem c2_counterexample :
    specVendorTotal c2X "alpha" = 200 ∧ specVendorTotal c2X "beta" = 200 ∧
    specVendorTotal c2X "gamma" = 200 ∧ specVendorTotal c2X "delta" = 200 ∧
    (200 : ℚ) < 1000 ∧
    generate_recommendation "t" (c2rec "alpha") = none ∧
    predict "t" c2X = [none, none, none, none] ∧
    evaluate "t" c2X 0.5 = [] := by
  have ha : strLower (strTrim "alpha") = "alpha" := by decide
  have hb : strLower (strTrim "beta") = "beta" := by decide
  have hc : strLower (strTrim "gamma") = "gamma" := by decide
  have hd : strLower (strTrim "delta") = "delta" := by decide
  have hpred : predict "t" c2X = [none, none, none, none] := by
    rw [predict_eq_map]
    simp [c2X, predictEntry_none]
  have hs : strLower "hr" = "hr" := by decide
  have hz : zScoreOf (c2rec "alpha") = -39/10 := by
    simp [zScoreOf, calculate_z_score, dept_stats, c2rec, hs]; norm_num
  have hA : ¬ ruleACond (c2rec "alpha") := by rw [ruleACond, hz]; norm_num
  have hB : ¬ ruleBCond (c2rec "alpha") := by
    intro hcond
    have h2 := hcond.2
    have hs2 : strLower "services" = "services" := by decide
    simp [c2rec, hs2, category_benchmarks] at h2
    norm_num at h2
  refine ⟨?_, ?_, ?_, ?_, by norm_num,
    genRec_none_of "t" (c2rec "alpha") hA hB, hpred, ?_⟩
  · simp [specVendorTotal, c2X, c2rec, ha, hb, hc, hd]
  · simp [specVendorTotal, c2X, c2rec, ha, hb, hc, hd]
  · simp [specVendorTotal, c2X, c2rec, ha, hb, hc, hd]
  · simp [specVendorTotal, c2X, c2rec, ha, hb, hc, hd]
  · rw [evaluate, hpred]
    simp [filterByConfidence]

/-- C2 amended: the engine implements no vendor-consolidation rule — no
recommendation it generates ever has the vendor_consolidation type,
whatever the vendors and amounts of the input. -/
theorem c2_no_vendor_consolidation :
    ∀ now r rec, generate_recommendation now r = some rec →
      rec.rtype ≠ RecType.vendor_consolidation := by
  intro now r rec h
  rcases genRec_cases now r rec h with ⟨_, hrec⟩ | ⟨_, _, hrec⟩ <;> subst hrec
  · simp [anomalyRec]
  · simp [costRec]

/-- Witness for C2 at a concrete record that generates a recommendation. -/
theorem c2_no_vendor_consolidation_witness :
    generate_recommendation "t" c2wrec = some (anomalyRec "t" c2wrec) ∧
    (anomalyRec "t" c2wrec).rtype ≠ RecType.vendor_consolidation := by
  have hs : strLower "technology" = "technology" := by decide
  have hz : zScoreOf c2wrec = 17 := by
    simp [zScoreOf, calculate_z_score, dept_stats, c2wrec, hs]; norm_num
  have hA : ruleACond c2wrec := by rw [ruleACond, hz]; norm_num
  have heq := genRec_some_of_A "t" c2wrec (by decide) hA
  exact ⟨heq, c2_no_vendor_consolidation "t" c2wrec (anomalyRec "t" c2wrec) heq⟩

/-- C4: the generator produces a recommendation with confidence 0.9 ≥ 0.5
for this record, but `predict` appends `None` in its place (`rec[0]`
raises KeyError on the string-keyed dict), so the evaluate boundary
returns the empty list instead of that recommendation. -/
theorem c4_swallowed_recommendations :
    (generate_recommendation "t" c4rec).map Recommendation.confidence_score =
      some 0.9 ∧
    (0.5 : ℚ) ≤ 0.9 ∧
    predictEntry "t" (PyInput.dict c4rec) = none ∧
    evaluate "t" [PyInput.dict c4rec] 0.5 = [] := by
  have hs : strLower "technology" = "technology" := by decide
  have hz : zScoreOf c4rec = 17 := by
    simp [zScoreOf, calculate_z_score, dept_stats, c4rec, hs]; norm_num
  have hA : ruleACond c4rec := by rw [ruleACond, hz]; norm_num
  refine ⟨?_, by norm_num, predictEntry_none _ _, ?_⟩
  · rw [genRec_some_of_A "t" c4rec (by decide) hA]
    simp [anomalyRec, hz]
    norm_num
  · simp [evaluate, predict, filterByConfidence, predictEntry_none]

/-- C8: every recommendation the generator produces from a record with a
non-negative amount has confidence in [0,1] and non-negative potential
savings. -/
theorem c8_invariants :
    ∀ now r rec a, r.amount = some a → 0 ≤ a →
      generate_recommendation now r = some rec →
      0 ≤ rec.confidence_score ∧ rec.confidence_score ≤ 1 ∧
      0 ≤ rec.potential_savings := by
  intro now r rec a ham ha h
  have hamt : r.amount.getD 0 = a := by rw [ham]; rfl
  rcases genRec_cases now r rec h with ⟨hA, hrec⟩ | ⟨_, _, hrec⟩ <;> subst hrec
  · rw [ruleACond] at hA
    refine ⟨?_, ?_, ?_⟩
    · show (0:ℚ) ≤ min 0.9 (0.7 + zScoreOf r * 0.05)
      exact le_min (by norm_num) (by nlinarith)
    · show min (0.9:ℚ) (0.7 + zScoreOf r * 0.05) ≤ 1
      exact le_trans (min_le_left _ _) (by norm_num)
    · show (0:ℚ) ≤ round2 (r.amount.getD 0 * 0.25)
      rw [hamt]
      exact round2_nonneg _ (mul_nonneg ha (by norm_num))
  · refine ⟨by norm_num [costRec], by norm_num [costRec], ?_⟩
    show (0:ℚ) ≤
      round2 (r.amount.getD 0 * (category_benchmarks (strLower (r.category.getD ""))).2)
    rw [hamt]
    exact round2_nonneg _ (mul_nonneg ha (category_benchmarks_sp_nonneg _))

/-- Witness for C8 at a concrete Rule B record with amount 5000. -/
theorem c8_invariants_witness :
    c8wrec.amount = some 5000 ∧ (0 : ℚ) ≤ 5000 ∧
    generate_recommendation "t" c8wrec = some (costRec "t" c8wrec) ∧
    (0 ≤ (costRec "t" c8wrec).confidence_score ∧
      (costRec "t" c8wrec).confidence_score ≤ 1 ∧
      0 ≤ (costRec "t" c8wrec).potential_savings) := by
  have hs : strLower "technology" = "technology" := by decide
  have hz : zScoreOf c8wrec = -2 := by
    simp [zScoreOf, calculate_z_score, dept_stats, c8wrec, hs]; norm_num
  have hA : ¬ ruleACond c8wrec := by rw [ruleACond, hz]; norm_num
  have hB : ruleBCond c8wrec := by
    refine ⟨by decide, ?_⟩
    have hs2 : strLower "office supplies" = "office supplies" := by decide
    simp [c8wrec, hs2, category_benchmarks]
    norm_num
  have heq := genRec_some_of_B "t" c8wrec (by decide) hA hB
  exact ⟨rfl, by norm_num, heq,
    c8_invariants "t" c8wrec (costRec "t" c8wrec) 5000 rfl (by norm_num) heq⟩
